import Mathlib

/-! Shallow embedding of `source/gvdb_library/src/gvdb_render.h` of the
gvdb-voxels repository.  The header declares (a) the uniform-slot
constants `UVIEW` .. `UTEXMAX` defined unconditionally, and (b) the
OpenGL render-setup and shader-factory entry points, declared only when
the `BUILD_OPENGL` compile flag is set.  The header contains no function
bodies; where a claim concerns run-time behaviour of the (absent)
implementation `gvdb_render.cpp`, the behaviour is modelled from the
specification and marked as such on the definition. -/

namespace GvdbRender

/-! ## Uniform slot constants (gvdb_render.h lines 14-36) -/

def UVIEW : Nat := 0

def UPROJ : Nat := 1

def UMODEL : Nat := 2

def UINVVIEW : Nat := 3

def ULIGHTPOS : Nat := 4

def UCAMPOS : Nat := 5

def UCAMDIMS : Nat := 6

def UCLRAMB : Nat := 7

def UCLRDIFF : Nat := 8

def UCLRSPEC : Nat := 9

def UTEX : Nat := 10

def UTEXRES : Nat := 11

def UW : Nat := 12

def USHADOWMASK : Nat := 13

def USHADOWSIZE : Nat := 14

def UEYELIGHT : Nat := 15

def UOVERTEX : Nat := 16

def UOVERSIZE : Nat := 17

def UVOLMIN : Nat := 18

def UVOLMAX : Nat := 19

def USAMPLES : Nat := 20

def UTEXMIN : Nat := 21

def UTEXMAX : Nat := 22

/-- The 23 slot constants, paired with their names, in exactly the order
they are defined in the header. -/
def uniformSlotConstants : List (String × Nat) :=
  [ ("UVIEW", UVIEW), ("UPROJ", UPROJ), ("UMODEL", UMODEL)
  , ("UINVVIEW", UINVVIEW), ("ULIGHTPOS", ULIGHTPOS), ("UCAMPOS", UCAMPOS)
  , ("UCAMDIMS", UCAMDIMS), ("UCLRAMB", UCLRAMB), ("UCLRDIFF", UCLRDIFF)
  , ("UCLRSPEC", UCLRSPEC), ("UTEX", UTEX), ("UTEXRES", UTEXRES)
  , ("UW", UW), ("USHADOWMASK", USHADOWMASK), ("USHADOWSIZE", USHADOWSIZE)
  , ("UEYELIGHT", UEYELIGHT), ("UOVERTEX", UOVERTEX), ("UOVERSIZE", UOVERSIZE)
  , ("UVOLMIN", UVOLMIN), ("UVOLMAX", UVOLMAX), ("USAMPLES", USAMPLES)
  , ("UTEXMIN", UTEXMIN), ("UTEXMAX", UTEXMAX) ]

/-! ## C++ parameter/return types appearing in the header's declarations -/

inductive CppType
  | void
  | intT
  | boolT
  | constCharPtr
  | scenePtr
  | matrix4FPtr
  | vector3DF
  | vector4DF
  deriving DecidableEq, Repr

/-- Pointer-valued parameter types (Scene*, Matrix4F*, const char*). -/
def CppType.isPointer : CppType → Bool
  | .constCharPtr => true
  | .scenePtr => true
  | .matrix4FPtr => true
  | _ => false

/-- A C++ pointer parameter type admits the null pointer as an argument
value; non-pointer types do not. -/
def CppType.admitsNull (t : CppType) : Bool := t.isPointer

/-- One function declaration of the header: its name, its parameter types
in order, and its return type. -/
structure FnDecl where
  name : String
  params : List CppType
  ret : CppType
  deriving DecidableEq, Repr

/-- The seventeen function declarations inside the BUILD_OPENGL block of
gvdb_render.h (lines 45-63), transcribed in order.  `renderSceneGL` is
declared twice (overload with and without `bMat`). -/
def gvdbRenderFnDecls : List FnDecl :=
  [ ⟨"gchkGL", [.constCharPtr], .void⟩
  , ⟨"renderCamSetupGL", [.scenePtr, .intT, .matrix4FPtr], .void⟩
  , ⟨"renderLightSetupGL", [.scenePtr, .intT], .void⟩
  , ⟨"renderSceneGL", [.scenePtr, .intT], .void⟩
  , ⟨"renderSceneGL", [.scenePtr, .intT, .boolT], .void⟩
  , ⟨"renderSetTex3D", [.scenePtr, .intT, .intT, .vector3DF], .void⟩
  , ⟨"renderSetTex2D", [.scenePtr, .intT, .intT], .void⟩
  , ⟨"renderSetMaterialGL", [.scenePtr, .intT, .vector4DF, .vector4DF, .vector4DF], .void⟩
  , ⟨"renderSetUW", [.scenePtr, .intT, .matrix4FPtr, .vector3DF], .void⟩
  , ⟨"renderScreenspaceGL", [.scenePtr, .intT], .void⟩
  , ⟨"makeSimpleShaderGL", [.scenePtr, .constCharPtr, .constCharPtr], .void⟩
  , ⟨"makeSliceShader", [.scenePtr, .constCharPtr, .constCharPtr], .void⟩
  , ⟨"makeOutlineShader", [.scenePtr, .constCharPtr, .constCharPtr], .void⟩
  , ⟨"makeVoxelizeShader", [.scenePtr, .constCharPtr, .constCharPtr, .constCharPtr], .void⟩
  , ⟨"makeRaycastShader", [.scenePtr, .constCharPtr, .constCharPtr], .void⟩
  , ⟨"makeInstanceShader", [.scenePtr, .constCharPtr, .constCharPtr], .void⟩
  , ⟨"makeScreenShader", [.scenePtr, .constCharPtr, .constCharPtr], .void⟩
  ]

/-- The full interface surface of the header: the slot constants are
defined unconditionally, while every function declaration sits inside
`#ifdef BUILD_OPENGL ... #endif`. -/
structure HeaderInterface where
  constants : List (String × Nat)
  functions : List FnDecl
  deriving DecidableEq, Repr

/-- gvdb_render.h as seen by the preprocessor under a given setting of
the BUILD_OPENGL flag. -/
def gvdbRenderHeader (buildOpenGL : Bool) : HeaderInterface :=
  { constants := uniformSlotConstants
  , functions := if buildOpenGL then gvdbRenderFnDecls else [] }

/-- Whether a declared function is a shader factory: its name begins with
`make`. -/
def isShaderFactory (d : FnDecl) : Bool :=
  d.name.data.take 4 = "make".data

/-- The shader-factory declarations: those whose name starts with `make`. -/
def shaderFactories : List FnDecl :=
  gvdbRenderFnDecls.filter isShaderFactory

/-- Number of shader source-file-name parameters (const char*) a factory
declaration takes. -/
def sourceNameCount (d : FnDecl) : Nat :=
  (d.params.filter (fun t => t = CppType.constCharPtr)).length

/-! ## Semantic model of the render-setup layer

The bodies of these functions live in `gvdb_render.cpp`, which is not part
of this source excerpt; the definitions below are therefore modelled from
the specification (each doc comment says so) and record, for each setup
call, which uniform slots it writes and with what values. -/

/-- Model of `Vector3DF`: a three-component vector (components abstracted
to integers; no arithmetic on them is performed by this layer). -/
structure Vec3 where
  x : Int
  y : Int
  z : Int
  deriving DecidableEq, Repr

/-- Model of `Vector4DF`: a four-component vector. -/
structure Vec4 where
  x : Int
  y : Int
  z : Int
  w : Int
  deriving DecidableEq, Repr

/-- Model of `Matrix4F`: a 4x4 matrix carried as its entry list. -/
structure Mat4 where
  entries : List Int
  deriving DecidableEq, Repr

/-- A value written into a uniform slot.  A `Matrix4F*` argument is a
pointer, so a matrix-valued upload carries an `Option Mat4` (none models
the null pointer). -/
inductive UVal
  | mat4 (m : Option Mat4)
  | vec3 (v : Vec3)
  | vec4 (v : Vec4)
  | texUnit (t : Int)
  | boolV (b : Bool)
  deriving DecidableEq, Repr

/-- Model of the `Scene` state this layer reads: camera and light state,
current material colors, and the shader-program registry. -/
structure SceneModel where
  viewMat : Mat4
  projMat : Mat4
  invViewMat : Mat4
  camPos : Vec3
  camDims : Vec3
  lightPos : Vec3
  eyeLight : Bool
  clrAmb : Vec4
  clrDiff : Vec4
  clrSpec : Vec4
  shaderRegistry : List Nat
  deriving DecidableEq, Repr

/-- The uniform state of one shader program: slot index to current value. -/
abbrev UniformStore := Nat → Option UVal

/-- Apply a list of (slot, value) writes to a uniform store, in order. -/
def applyWrites (ws : List (Nat × UVal)) (st : UniformStore) : UniformStore :=
  ws.foldl (fun s p => fun n => if n = p.1 then some p.2 else s n) st

/-- Modelled from the spec (body in gvdb_render.cpp, not in this excerpt):
`renderCamSetupGL` writes view, projection, inverse-view, camera
position/dimensions, and the model matrix into slots
UVIEW/UPROJ/UINVVIEW/UCAMPOS/UCAMDIMS/UMODEL. -/
def renderCamSetupGL_writes (sc : SceneModel) (model : Option Mat4) :
    List (Nat × UVal) :=
  [ (UVIEW, .mat4 (some sc.viewMat))
  , (UPROJ, .mat4 (some sc.projMat))
  , (UINVVIEW, .mat4 (some sc.invViewMat))
  , (UCAMPOS, .vec3 sc.camPos)
  , (UCAMDIMS, .vec3 sc.camDims)
  , (UMODEL, .mat4 model) ]

/-- Modelled from the spec (body in gvdb_render.cpp, not in this excerpt):
`renderLightSetupGL` writes light position and eye-light flag
(ULIGHTPOS, UEYELIGHT). -/
def renderLightSetupGL_writes (sc : SceneModel) : List (Nat × UVal) :=
  [ (ULIGHTPOS, .vec3 sc.lightPos), (UEYELIGHT, .boolV sc.eyeLight) ]

/-- Modelled from the spec (body in gvdb_render.cpp, not in this excerpt):
`renderSetTex3D` binds the texture to slot UTEX and uploads its
resolution to UTEXRES. -/
def renderSetTex3D_writes (tex : Int) (res : Vec3) : List (Nat × UVal) :=
  [ (UTEX, .texUnit tex), (UTEXRES, .vec3 res) ]

/-- Modelled from the spec (body in gvdb_render.cpp, not in this excerpt):
`renderSetTex2D` binds the texture to slot UTEX; it has no resolution
argument and uploads no resolution. -/
def renderSetTex2D_writes (tex : Int) : List (Nat × UVal) :=
  [ (UTEX, .texUnit tex) ]

/-- Modelled from the spec (body in gvdb_render.cpp, not in this excerpt):
`renderSetMaterialGL` uploads ambient/diffuse/specular color vectors to
UCLRAMB/UCLRDIFF/UCLRSPEC. -/
def renderSetMaterialGL_writes (amb diff spc : Vec4) : List (Nat × UVal) :=
  [ (UCLRAMB, .vec4 amb), (UCLRDIFF, .vec4 diff), (UCLRSPEC, .vec4 spc) ]

/-- Modelled from the spec (body in gvdb_render.cpp, not in this excerpt):
`renderSetUW` uploads a combined model/volume-scale uniform pair to
UOVERTEX and UOVERSIZE. -/
def renderSetUW_writes (model : Option Mat4) (res : Vec3) :
    List (Nat × UVal) :=
  [ (UOVERTEX, .mat4 model), (UOVERSIZE, .vec3 res) ]

/-- Modelled from the spec (body in gvdb_render.cpp, not in this excerpt):
`renderScreenspaceGL` configures full-screen-quad rendering state; the
spec names no uniform slot for it, so it writes none. -/
def renderScreenspaceGL_writes (_sc : SceneModel) : List (Nat × UVal) :=
  []

/-- Modelled from the spec (body in gvdb_render.cpp, not in this excerpt):
`renderSceneGL` with `bMat = true` rebinds the material uniforms from the
scene before drawing; with `bMat = false` it issues the draw without
touching the material uniforms. -/
def renderSceneGL_writes (sc : SceneModel) (bMat : Bool) :
    List (Nat × UVal) :=
  if bMat then renderSetMaterialGL_writes sc.clrAmb sc.clrDiff sc.clrSpec
  else []

/-- Outcome of one setup call: it either completes, having performed some
uniform writes and emitted some diagnostics, or crashes the process. -/
inductive CallResult
  | completed (writes : List (Nat × UVal)) (diags : List String)
  | fatalCrash
  deriving DecidableEq, Repr

/-- Modelled from the spec (body in gvdb_render.cpp, not in this excerpt):
setting a uniform on a program whose declared slot set lacks the slot is
silently ignored apart from a diagnostic message; it is never fatal. -/
def setUniform (declared : List Nat) (slot : Nat) (v : UVal) : CallResult :=
  .completed (if slot ∈ declared then [(slot, v)] else [])
    (if slot ∈ declared then []
     else ["missing uniform slot " ++ toString slot])

/-- Sequence two call outcomes: writes and diagnostics accumulate, a
crash anywhere is a crash of the whole call. -/
def seqResults : CallResult → CallResult → CallResult
  | .completed w1 d1, .completed w2 d2 => .completed (w1 ++ w2) (d1 ++ d2)
  | _, _ => .fatalCrash

/-- Run a setup call: attempt every one of its uniform writes against the
program's declared slot set, sequencing the outcomes. -/
def runSetup (declared : List Nat) (ws : List (Nat × UVal)) : CallResult :=
  ws.foldl (fun acc p => seqResults acc (setUniform declared p.1 p.2))
    (.completed [] [])

/-- Modelled from the spec (body in gvdb_render.cpp, not in this excerpt):
a freshly linked program object receives a handle distinct from every
handle already in the registry. -/
def freshHandle (registry : List Nat) : Nat :=
  registry.foldr max 0 + 1

/-- Modelled from the spec (body in gvdb_render.cpp, not in this excerpt):
a shader factory compiles/links one new program object and appends its
handle to the scene's shader registry. -/
def registerShader (s : SceneModel) : SceneModel :=
  { s with shaderRegistry := s.shaderRegistry ++ [freshHandle s.shaderRegistry] }

/-- Modelled from the spec: makeSimpleShaderGL compiles the named vertex
and fragment sources and registers the resulting program in the scene. -/
def makeSimpleShaderGL_sem (s : SceneModel) (_vertfile _fragfile : String) :
    SceneModel :=
  registerShader s

/-- Modelled from the spec: makeSliceShader compiles the named vertex and
fragment sources and registers the resulting program in the scene. -/
def makeSliceShader_sem (s : SceneModel) (_vertname _fragname : String) :
    SceneModel :=
  registerShader s

/-- Modelled from the spec: makeOutlineShader compiles the named vertex
and fragment sources and registers the resulting program in the scene. -/
def makeOutlineShader_sem (s : SceneModel) (_vertname _fragname : String) :
    SceneModel :=
  registerShader s

/-- Modelled from the spec: makeVoxelizeShader compiles the named vertex,
fragment and geometry sources and registers the resulting program in the
scene. -/
def makeVoxelizeShader_sem
    (s : SceneModel) (_vertname _fragname _geomname : String) : SceneModel :=
  registerShader s

/-- Modelled from the spec: makeRaycastShader compiles the named vertex
and fragment sources and registers the resulting program in the scene. -/
def makeRaycastShader_sem (s : SceneModel) (_vertname _fragname : String) :
    SceneModel :=
  registerShader s

/-- Modelled from the spec: makeInstanceShader compiles the named vertex
and fragment sources and registers the resulting program in the scene. -/
def makeInstanceShader_sem (s : SceneModel) (_vertname _fragname : String) :
    SceneModel :=
  registerShader s

/-- Modelled from the spec: makeScreenShader compiles the named vertex
and fragment sources and registers the resulting program in the scene. -/
def makeScreenShader_sem (s : SceneModel) (_vertname _fragname : String) :
    SceneModel :=
  registerShader s

/-- A factory call registered exactly one new handle: the registry grew
by exactly the fresh handle, and that handle is new. -/
def registersOneFresh (after before : SceneModel) : Prop :=
  after.shaderRegistry
      = before.shaderRegistry ++ [freshHandle before.shaderRegistry] ∧
    freshHandle before.shaderRegistry ∉ before.shaderRegistry

end GvdbRender

namespace GvdbRender

/-! ## Shared helper lemmas -/

lemma mem_le_foldr_max (x : Nat) (l : List Nat) (h : x ∈ l) :
    x ≤ l.foldr max 0 := by
  induction l with
  | nil => cases h
  | cons a t ih =>
      rcases List.mem_cons.mp h with h1 | h2
      · subst h1; exact Nat.le_max_left _ _
      · exact le_trans (ih h2) (Nat.le_max_right _ _)

lemma freshHandle_not_mem (l : List Nat) : freshHandle l ∉ l := by
  intro h
  have := mem_le_foldr_max _ _ h
  simp only [freshHandle] at this
  omega

lemma registerShader_registersOneFresh (s : SceneModel) :
    registersOneFresh (registerShader s) s :=
  ⟨rfl, freshHandle_not_mem _⟩

lemma foldl_seq_completed (declared : List Nat) (ws : List (Nat × UVal)) :
    ∀ w d, ∃ w2 d2,
      ws.foldl (fun acc p => seqResults acc (setUniform declared p.1 p.2))
          (CallResult.completed w d)
        = CallResult.completed w2 d2 := by
  induction ws with
  | nil => intro w d; exact ⟨w, d, rfl⟩
  | cons p t ih =>
      intro w d
      simpa [List.foldl, seqResults, setUniform] using ih _ _

lemma runSetup_ne_fatal (declared : List Nat) (ws : List (Nat × UVal)) :
    runSetup declared ws ≠ CallResult.fatalCrash := by
  obtain ⟨w2, d2, h⟩ := foldl_seq_completed declared ws [] []
  intro hc
  rw [runSetup] at hc
  rw [h] at hc
  cases hc

/-- Claim C1: the 23 uniform slot constants UVIEW .. UTEXMAX take the
consecutive values 0 through 22 in declaration order, hence are pairwise
distinct, with UVIEW = 0 and UTEXMAX = 22. -/
theorem uniform_slots_contiguous :
    uniformSlotConstants.map Prod.snd = List.range 23 ∧
    (uniformSlotConstants.map Prod.snd).Nodup ∧
    UVIEW = 0 ∧ UTEXMAX = 22 := by
  decide

/-- Claim C2: every function declared in the header's interface returns
void, so no error or result is propagated through a return value; the
declarations are exactly gchkGL, the nine render-setup declarations, and
the seven shader factories. -/
theorem all_declared_functions_return_void :
    (gvdbRenderFnDecls.all (fun d => d.ret = CppType.void)) = true ∧
    gvdbRenderFnDecls.map FnDecl.name =
      [ "gchkGL", "renderCamSetupGL", "renderLightSetupGL", "renderSceneGL"
      , "renderSceneGL", "renderSetTex3D", "renderSetTex2D"
      , "renderSetMaterialGL", "renderSetUW", "renderScreenspaceGL"
      , "makeSimpleShaderGL", "makeSliceShader", "makeOutlineShader"
      , "makeVoxelizeShader", "makeRaycastShader", "makeInstanceShader"
      , "makeScreenShader" ] := by
  constructor
  · decide
  · rfl

/-- Claim C3: exactly seven shader factory declarations exist, each taking
a Scene pointer first and only const char* source names after it;
makeVoxelizeShader alone takes three source names, every other factory
exactly two. -/
theorem seven_shader_factories :
    shaderFactories.map FnDecl.name =
      [ "makeSimpleShaderGL", "makeSliceShader", "makeOutlineShader"
      , "makeVoxelizeShader", "makeRaycastShader", "makeInstanceShader"
      , "makeScreenShader" ] ∧
    shaderFactories.length = 7 ∧
    (shaderFactories.all (fun d =>
      d.params.head? = some CppType.scenePtr ∧
      d.params.tail.all (fun t => t = CppType.constCharPtr))) = true ∧
    (shaderFactories.all (fun d =>
      sourceNameCount d =
        if d.name = "makeVoxelizeShader" then 3 else 2)) = true := by
  refine ⟨by decide, by decide, by decide, by decide⟩

/-- Claim C4: renderSetTex3D takes a Vector3DF resolution argument besides
scene, program and texture, and uploads it to slot UTEXRES; renderSetTex2D
takes no resolution argument and uploads none; both bind the texture to
slot UTEX. -/
theorem tex3D_uploads_resolution_tex2D_does_not (tex : Int) (res : Vec3) :
    (gvdbRenderFnDecls.filter (fun d => d.name = "renderSetTex3D")).map
        FnDecl.params
      = [[.scenePtr, .intT, .intT, .vector3DF]] ∧
    (gvdbRenderFnDecls.filter (fun d => d.name = "renderSetTex2D")).map
        FnDecl.params
      = [[.scenePtr, .intT, .intT]] ∧
    (UTEXRES, UVal.vec3 res) ∈ renderSetTex3D_writes tex res ∧
    (UTEX, UVal.texUnit tex) ∈ renderSetTex3D_writes tex res ∧
    (UTEX, UVal.texUnit tex) ∈ renderSetTex2D_writes tex ∧
    (∀ v, (UTEXRES, v) ∉ renderSetTex2D_writes tex) := by
  refine ⟨by decide, by decide, ?_, ?_, ?_, ?_⟩
  · simp [renderSetTex3D_writes]
  · simp [renderSetTex3D_writes]
  · simp [renderSetTex2D_writes]
  · intro v
    simp [renderSetTex2D_writes, UTEX, UTEXRES]

/-- Claim C5: every uniform setup call, run against a program whose set of
declared uniform slots lacks any of the slots the call writes, still
completes: the outcome is never a process crash, only diagnostics. -/
theorem uniform_setup_never_fatal (declared : List Nat) (sc : SceneModel)
    (model : Option Mat4) (tex : Int) (res : Vec3) (amb diff spc : Vec4) :
    runSetup declared (renderCamSetupGL_writes sc model)
        ≠ CallResult.fatalCrash ∧
    runSetup declared (renderLightSetupGL_writes sc)
        ≠ CallResult.fatalCrash ∧
    runSetup declared (renderSetTex3D_writes tex res)
        ≠ CallResult.fatalCrash ∧
    runSetup declared (renderSetTex2D_writes tex)
        ≠ CallResult.fatalCrash ∧
    runSetup declared (renderSetMaterialGL_writes amb diff spc)
        ≠ CallResult.fatalCrash ∧
    runSetup declared (renderSetUW_writes model res)
        ≠ CallResult.fatalCrash ∧
    runSetup declared (renderScreenspaceGL_writes sc)
        ≠ CallResult.fatalCrash :=
  ⟨runSetup_ne_fatal _ _, runSetup_ne_fatal _ _, runSetup_ne_fatal _ _,
   runSetup_ne_fatal _ _, runSetup_ne_fatal _ _, runSetup_ne_fatal _ _,
   runSetup_ne_fatal _ _⟩

/-- Claim C6: every shader factory call registers exactly one new program
handle in the scene registry, distinct from every previously registered
handle. -/
theorem factories_register_one_fresh_handle (s : SceneModel)
    (v f g : String) :
    registersOneFresh (makeSimpleShaderGL_sem s v f) s ∧
    registersOneFresh (makeSliceShader_sem s v f) s ∧
    registersOneFresh (makeOutlineShader_sem s v f) s ∧
    registersOneFresh (makeVoxelizeShader_sem s v f g) s ∧
    registersOneFresh (makeRaycastShader_sem s v f) s ∧
    registersOneFresh (makeInstanceShader_sem s v f) s ∧
    registersOneFresh (makeScreenShader_sem s v f) s :=
  ⟨registerShader_registersOneFresh s, registerShader_registersOneFresh s,
   registerShader_registersOneFresh s, registerShader_registersOneFresh s,
   registerShader_registersOneFresh s, registerShader_registersOneFresh s,
   registerShader_registersOneFresh s⟩

/-- Claim C7: renderSceneGL with bMat = false performs no material-uniform
writes, so the values bound at UCLRAMB/UCLRDIFF/UCLRSPEC by a prior
renderSetMaterialGL call are still bound after the draw. -/
theorem renderSceneGL_false_preserves_material (sc : SceneModel)
    (st : UniformStore) (amb diff spc : Vec4) :
    applyWrites (renderSceneGL_writes sc false)
        (applyWrites (renderSetMaterialGL_writes amb diff spc) st) UCLRAMB
      = some (UVal.vec4 amb) ∧
    applyWrites (renderSceneGL_writes sc false)
        (applyWrites (renderSetMaterialGL_writes amb diff spc) st) UCLRDIFF
      = some (UVal.vec4 diff) ∧
    applyWrites (renderSceneGL_writes sc false)
        (applyWrites (renderSetMaterialGL_writes amb diff spc) st) UCLRSPEC
      = some (UVal.vec4 spc) ∧
    renderSceneGL_writes sc false = [] := by
  refine ⟨?_, ?_, ?_, rfl⟩ <;>
    simp [renderSceneGL_writes, applyWrites, renderSetMaterialGL_writes,
      UCLRAMB, UCLRDIFF, UCLRSPEC]

/-- Claim C8: renderSetUW writes exactly the slots UOVERTEX (16) and
UOVERSIZE (17), and never the identically named slot UW (12). -/
theorem renderSetUW_targets_overtex_oversize (model : Option Mat4)
    (res : Vec3) :
    (renderSetUW_writes model res).map Prod.fst = [UOVERTEX, UOVERSIZE] ∧
    UOVERTEX = 16 ∧ UOVERSIZE = 17 ∧ UW = 12 ∧
    UW ∉ (renderSetUW_writes model res).map Prod.fst := by
  refine ⟨rfl, rfl, rfl, rfl, ?_⟩
  simp [renderSetUW_writes, UW, UOVERTEX, UOVERSIZE]

/-- Claim C9: with BUILD_OPENGL undefined the header declares no function
at all, while the 23 slot constants remain; with BUILD_OPENGL defined it
declares exactly the seventeen functions of the interface. -/
theorem build_opengl_gates_interface :
    (gvdbRenderHeader false).functions = [] ∧
    (gvdbRenderHeader true).functions = gvdbRenderFnDecls ∧
    (gvdbRenderHeader false).constants = uniformSlotConstants ∧
    (gvdbRenderHeader true).constants = uniformSlotConstants ∧
    (gvdbRenderHeader false).constants.length = 23 ∧
    (gvdbRenderHeader true).functions.length = 17 :=
  ⟨rfl, rfl, rfl, rfl, rfl, rfl⟩

/-- Claim C10: renderCamSetupGL and renderSetUW receive the model matrix
as a Matrix4F pointer, a type that admits null, and the semantic model
accepts the null model matrix (none) in both calls. -/
theorem model_matrix_pointer_admits_null (sc : SceneModel) (res : Vec3) :
    (gvdbRenderFnDecls.filter (fun d => d.name = "renderCamSetupGL")).map
        FnDecl.params
      = [[.scenePtr, .intT, .matrix4FPtr]] ∧
    (gvdbRenderFnDecls.filter (fun d => d.name = "renderSetUW")).map
        FnDecl.params
      = [[.scenePtr, .intT, .matrix4FPtr, .vector3DF]] ∧
    CppType.matrix4FPtr.admitsNull = true ∧
    (renderCamSetupGL_writes sc none).map Prod.fst
      = [UVIEW, UPROJ, UINVVIEW, UCAMPOS, UCAMDIMS, UMODEL] ∧
    (renderSetUW_writes none res).map Prod.fst = [UOVERTEX, UOVERSIZE] := by
  refine ⟨by decide, by decide, rfl, rfl, rfl⟩

end GvdbRender
